import Mathlib

/-!
Verification of the image-download HTTP router
(`src/routers/image_downloader.py`) against its specification.

The router is embedded shallowly:

* the filesystem visible to `os.path.exists` is a function
  `String → Except String Bool` — a path either resolves to an existence
  boolean or makes the probe raise (the `Except.error` case models an
  arbitrary Python exception escaping from the lookup);
* the external `ImageDownloader.clear_all_images()` call is a value of
  `Except String Bool`: it returns a boolean or raises;
* FastAPI's `HTTPException` and `FileResponse`, and the JSON dictionaries
  the handlers return, are plain structures;
* `BackgroundTasks.add_task` is modelled by appending the scheduled
  argument to an explicit task list.
-/

/-- FastAPI `HTTPException` as raised by the router: a status code and a
detail string. -/
structure HTTPException where
  status_code : Nat
  detail : String
deriving DecidableEq, Repr

/-- FastAPI `FileResponse(img_path, media_type=...)` as returned by
`get_local_image`: the served file path and the content type. -/
structure FileResponse where
  path : String
  media_type : String
deriving DecidableEq, Repr

/-- A Python exception inside the `try` block of `get_local_image`: either
an `HTTPException` (re-raised as is) or any other exception carrying its
message. -/
inductive PyError where
  | http (status_code : Nat) (detail : String)
  | other (msg : String)
deriving DecidableEq, Repr

/-- `os.path.join(a, b)` for a relative second component: `a + "/" + b`. -/
def os_join (a b : String) : String := a ++ "/" ++ b

/-- Python string slicing `s[:2]`: the first two characters (all of them
when the string is shorter). -/
def py_slice2 (s : String) : String := String.mk (List.take 2 s.data)

/-- The fixed, ordered extension list probed by `get_local_image`
(line 107 of the source): `('.jpg', '.jpeg', '.png', '.webp', '.gif')`. -/
def image_exts : List String := [".jpg", ".jpeg", ".png", ".webp", ".gif"]

/-- The `media_type` expression of line 113:
`f"image/{ext[1:]}" if ext != '.jpg' else "image/jpeg"`. -/
def media_type_of (ext : String) : String :=
  if ext = ".jpg" then "image/jpeg" else "image/" ++ String.drop ext 1

/-- The full path probed for one extension (line 108):
`os.path.join(img_dir, f"{file_hash}{ext}")`. -/
def probe_path (img_dir file_hash ext : String) : String :=
  os_join img_dir (file_hash ++ ext)

/-- The extension-probing loop of lines 107-114: try each extension in
order, return the `FileResponse` of the first path that exists; an
exception from the existence check propagates. -/
def probeExts (fs : String → Except String Bool) (img_dir file_hash : String) :
    List String → Except String (Option FileResponse)
  | [] => Except.ok none
  | ext :: rest =>
    match fs (probe_path img_dir file_hash ext) with
    | Except.error e => Except.error e
    | Except.ok true =>
        Except.ok (some ⟨probe_path img_dir file_hash ext, media_type_of ext⟩)
    | Except.ok false => probeExts fs img_dir file_hash rest

/-- The directory probed for a hash: `<base>/<image_type>/<hash[:2]>`
(lines 94-97). -/
def img_dir_of (base image_type file_hash : String) : String :=
  os_join (os_join base image_type) (py_slice2 file_hash)

/-- The body of the `try` block of `get_local_image` (lines 92-120):
build the two-level directory, 404 when it is absent, otherwise probe the
extensions and 404 when none matches. Filesystem exceptions surface as
`PyError.other`. -/
def tryBody (fs : String → Except String Bool) (base image_type file_hash : String) :
    Except PyError FileResponse :=
  let img_dir := img_dir_of base image_type file_hash
  match fs img_dir with
  | Except.error e => Except.error (PyError.other e)
  | Except.ok false => Except.error (PyError.http 404 ("图片不存在: " ++ file_hash))
  | Except.ok true =>
    match probeExts fs img_dir file_hash image_exts with
    | Except.error e => Except.error (PyError.other e)
    | Except.ok (some resp) => Except.ok resp
    | Except.ok none => Except.error (PyError.http 404 ("图片不存在: " ++ file_hash))

/-- Handler `GET /local/{image_type}/{file_hash}` (lines 70-129): reject a
category outside covers/avatars with 400 before any filesystem access;
run the `try` body; re-raise `HTTPException`s and turn any other
exception into a 500. -/
def get_local_image (fs : String → Except String Bool)
    (base image_type file_hash : String) : Except HTTPException FileResponse :=
  if image_type = "covers" ∨ image_type = "avatars" then
    match tryBody fs base image_type file_hash with
    | Except.ok resp => Except.ok resp
    | Except.error (PyError.http c d) => Except.error ⟨c, d⟩
    | Except.error (PyError.other m) =>
        Except.error ⟨500, "获取图片失败: " ++ m⟩
  else
    Except.error ⟨400, "无效的图片类型: " ++ image_type⟩

/-- The `data` object of the `/clear` success response (lines 49-57). -/
structure ClearData where
  cleared_paths : List String
  status_file : String
deriving DecidableEq, Repr

/-- The JSON dictionary returned by `/clear` (lines 45-68): a status, a
message, and the `data` object present only on success. -/
structure ClearResponse where
  status : String
  message : String
  data : Option ClearData
deriving DecidableEq, Repr

/-- Handler `POST /clear` (lines 40-68). `clearResult` is the outcome of
the external `downloader.clear_all_images()` call: `Except.ok b` when it
returns the boolean `b`, `Except.error e` when it raises with message
`e`. -/
def clear_images (clearResult : Except String Bool) : ClearResponse :=
  match clearResult with
  | Except.ok true =>
    { status := "success"
      message := "已清空所有图片和下载状态"
      data := some
        { cleared_paths :=
            ["output/images/covers", "output/images/avatars",
             "output/images/orphaned_covers", "output/images/orphaned_avatars"]
          status_file := "output/download_status.json" } }
  | Except.ok false =>
    { status := "error"
      message := "清空图片失败，请查看日志了解详细信息"
      data := none }
  | Except.error e =>
    { status := "error"
      message := "清空图片时发生错误: " ++ e
      data := none }

/-- The JSON dictionary returned by `/start` (lines 25-28). -/
structure StartResponse where
  status : String
  message : String
deriving DecidableEq, Repr

/-- Handler `POST /start` (lines 12-28): append the download task (with
its optional year) to the background task list and immediately return a
success acknowledgment. -/
def start_download (tasks : List (Option Int)) (year : Option Int) :
    List (Option Int) × StartResponse :=
  (tasks ++ [year],
   { status := "success"
     message := "开始下载" ++
       (match year with
        | none => "所有年份"
        | some y => toString y ++ "年") ++ "的图片" })

deriving instance DecidableEq for Except

/-- A filesystem on which every `os.path.exists` probe succeeds and
answers `f`: the normal, non-raising case. -/
def pureFS (f : String → Bool) : String → Except String Bool :=
  fun p => Except.ok (f p)

/-- The probing loop only looks at the filesystem on the probe paths of
its extension list: two filesystems agreeing there give the same
outcome. -/
theorem probeExts_agree (fs fs' : String → Except String Bool)
    (img_dir file_hash : String) (l : List String)
    (h : ∀ ext ∈ l, fs (probe_path img_dir file_hash ext) =
      fs' (probe_path img_dir file_hash ext)) :
    probeExts fs img_dir file_hash l = probeExts fs' img_dir file_hash l := by
  induction l with
  | nil => rfl
  | cons ext rest ih =>
    have hx := h ext (List.mem_cons_self ext rest)
    have hr := ih fun e he => h e (List.mem_cons_of_mem ext he)
    simp only [probeExts, hx, hr]

/-- On a non-raising filesystem the probing loop returns exactly the first
extension whose probe path exists, as a `List.find?`. -/
theorem probeExts_pure (f : String → Bool) (img_dir file_hash : String)
    (l : List String) :
    probeExts (pureFS f) img_dir file_hash l =
      Except.ok ((l.find? fun ext => f (probe_path img_dir file_hash ext)).map
        fun ext => ⟨probe_path img_dir file_hash ext, media_type_of ext⟩) := by
  induction l with
  | nil => rfl
  | cons ext rest ih =>
    by_cases hx : f (probe_path img_dir file_hash ext) = true
    · simp [probeExts, pureFS, hx, List.find?_cons_of_pos]
    · have hx' : f (probe_path img_dir file_hash ext) = false := by
        cases hf : f (probe_path img_dir file_hash ext)
        · rfl
        · exact absurd hf hx
      simp [probeExts, pureFS, hx', ih, List.find?_cons_of_neg]

/-- A successful probe serves one of the listed extensions, at its probe
path, with the media type the code computes for it. -/
theorem probeExts_ok_some (fs : String → Except String Bool)
    (img_dir file_hash : String) (l : List String) (resp : FileResponse)
    (h : probeExts fs img_dir file_hash l = Except.ok (some resp)) :
    ∃ ext ∈ l, resp = ⟨probe_path img_dir file_hash ext, media_type_of ext⟩ := by
  induction l with
  | nil => exact absurd h (by simp [probeExts])
  | cons ext rest ih =>
    rw [probeExts] at h
    cases hx : fs (probe_path img_dir file_hash ext) with
    | error e => rw [hx] at h; exact absurd h (by simp)
    | ok b =>
      cases b with
      | true =>
        rw [hx] at h
        simp only [Except.ok.injEq, Option.some.injEq] at h
        exact ⟨ext, List.mem_cons_self ext rest, h.symm⟩
      | false =>
        rw [hx] at h
        obtain ⟨e, he, hr⟩ := ih h
        exact ⟨e, List.mem_cons_of_mem ext he, hr⟩

/-- C3: for every image_type outside covers/avatars, `get_local_image`
fails with the 400 InvalidCategory error, and the result is a constant
independent of the filesystem — no filesystem access happens before the
failure. -/
theorem get_local_image_invalid_type (fs : String → Except String Bool)
    (base image_type file_hash : String)
    (h1 : image_type ≠ "covers") (h2 : image_type ≠ "avatars") :
    get_local_image fs base image_type file_hash =
      Except.error ⟨400, "无效的图片类型: " ++ image_type⟩ := by
  simp [get_local_image, h1, h2]

/-- C3 witness: the scenario `/local/badtype/abc123` from the spec, on a
filesystem where every path exists: still a 400, untouched filesystem. -/
theorem get_local_image_invalid_type_witness :
    get_local_image (pureFS fun _ => true) "output/images" "badtype" "abc123" =
      Except.error ⟨400, "无效的图片类型: " ++ "badtype"⟩ :=
  get_local_image_invalid_type (pureFS fun _ => true) "output/images"
    "badtype" "abc123" (by decide) (by decide)

/-- C6: when `clear_all_images()` returns true the `/clear` response is the
success dictionary enumerating the covers, avatars and the two orphan
directories plus the ledger status file name; when it returns false the
response reports an error. -/
theorem clear_images_reports :
    clear_images (Except.ok true) =
      { status := "success"
        message := "已清空所有图片和下载状态"
        data := some
          { cleared_paths :=
              ["output/images/covers", "output/images/avatars",
               "output/images/orphaned_covers", "output/images/orphaned_avatars"]
            status_file := "output/download_status.json" } } ∧
    (clear_images (Except.ok false)).status = "error" :=
  ⟨rfl, rfl⟩

/-- C7 counterexample: on the partial-failure outcome (`clear_all_images`
returns false after clearing only some directories — its only way to
signal partial failure), the response carries no enumeration of what was
or was not cleared (`data` is `none`) and only the fixed,
undifferentiated failure message; so the endpoint does not "explicitly
report partial success identifying what was and was not cleared". -/
theorem clear_images_no_partial_report :
    (clear_images (Except.ok false)).data = none ∧
    (clear_images (Except.ok false)).message =
      "清空图片失败，请查看日志了解详细信息" :=
  ⟨rfl, rfl⟩

/-- C7 amended: when `clear_all_images()` reports (partial or total)
failure by returning false, the `/clear` response is an undifferentiated
error — status "error", a fixed message pointing at the logs, and no
enumeration of cleared or uncleared directories — and it never claims
full success. -/
theorem clear_images_failure_undifferentiated :
    (clear_images (Except.ok false)).status = "error" ∧
    (clear_images (Except.ok false)).message =
      "清空图片失败，请查看日志了解详细信息" ∧
    (clear_images (Except.ok false)).data = none :=
  ⟨rfl, rfl, rfl⟩

/-- C8: for every pending task list and every year argument (given or
omitted), `/start` appends the download task for that year to the
background task list and returns the success acknowledgment — its
response is computed without running the task, so it does not depend on
any later outcome of the run. -/
theorem start_download_schedules_and_acks (tasks : List (Option Int))
    (year : Option Int) :
    (start_download tasks year).1 = tasks ++ [year] ∧
    (start_download tasks year).2.status = "success" :=
  ⟨rfl, rfl⟩

/-- C10: whatever the external `clear_all_images()` does — returns true,
returns false, or raises — `/clear` returns a dictionary whose status is
"success" or "error"; no exception propagates. -/
theorem clear_images_total_status (clearResult : Except String Bool) :
    (clear_images clearResult).status = "success" ∨
    (clear_images clearResult).status = "error" := by
  rcases clearResult with e | b
  · exact Or.inr rfl
  · cases b
    · exact Or.inr rfl
    · exact Or.inl rfl

/-- For a valid category the handler is the exception-translating wrapper
around the `try` body. -/
theorem get_local_image_valid (fs : String → Except String Bool)
    (base image_type file_hash : String)
    (hv : image_type = "covers" ∨ image_type = "avatars") :
    get_local_image fs base image_type file_hash =
      match tryBody fs base image_type file_hash with
      | Except.ok resp => Except.ok resp
      | Except.error (PyError.http c d) => Except.error ⟨c, d⟩
      | Except.error (PyError.other m) =>
          Except.error ⟨500, "获取图片失败: " ++ m⟩ := by
  rw [get_local_image, if_pos hv]

/-- The `try` body only looks at the filesystem on the probed directory
and the probe paths of the extension list. -/
theorem tryBody_agree (fs fs' : String → Except String Bool)
    (base image_type file_hash : String)
    (hdir : fs (img_dir_of base image_type file_hash) =
      fs' (img_dir_of base image_type file_hash))
    (hp : ∀ ext ∈ image_exts,
      fs (probe_path (img_dir_of base image_type file_hash) file_hash ext) =
      fs' (probe_path (img_dir_of base image_type file_hash) file_hash ext)) :
    tryBody fs base image_type file_hash = tryBody fs' base image_type file_hash := by
  simp only [tryBody]
  rw [hdir, probeExts_agree fs fs' _ _ _ hp]

/-- On a non-raising filesystem the `try` body is: 404 when the directory
is absent, otherwise the first matching extension or 404. -/
theorem tryBody_pure (f : String → Bool) (base image_type file_hash : String) :
    tryBody (pureFS f) base image_type file_hash =
      if f (img_dir_of base image_type file_hash) then
        match (image_exts.find? fun ext =>
            f (probe_path (img_dir_of base image_type file_hash) file_hash ext)) with
        | some ext =>
            Except.ok ⟨probe_path (img_dir_of base image_type file_hash) file_hash ext,
              media_type_of ext⟩
        | none => Except.error (PyError.http 404 ("图片不存在: " ++ file_hash))
      else Except.error (PyError.http 404 ("图片不存在: " ++ file_hash)) := by
  simp only [tryBody]
  cases hdir : f (img_dir_of base image_type file_hash) with
  | false => simp [pureFS, hdir]
  | true =>
    simp only [pureFS, hdir, if_true, probeExts_pure]
    cases hfind : (image_exts.find? fun ext =>
        f (probe_path (img_dir_of base image_type file_hash) file_hash ext)) with
    | none => rfl
    | some ext => rfl

/-- A successful `try` body comes from a successful probe: the body
returns `Except.ok resp` only when the directory existed and the probing
loop found `resp`. -/
theorem tryBody_ok (fs : String → Except String Bool)
    (base image_type file_hash : String) (resp : FileResponse)
    (h : tryBody fs base image_type file_hash = Except.ok resp) :
    probeExts fs (img_dir_of base image_type file_hash) file_hash image_exts =
      Except.ok (some resp) := by
  simp only [tryBody] at h
  cases hdir : fs (img_dir_of base image_type file_hash) with
  | error e => rw [hdir] at h; exact absurd h (by simp)
  | ok b =>
    cases b with
    | false => rw [hdir] at h; exact absurd h (by simp)
    | true =>
      rw [hdir] at h
      cases hp : probeExts fs (img_dir_of base image_type file_hash) file_hash image_exts with
      | error e => rw [hp] at h; exact absurd h (by simp)
      | ok o =>
        cases o with
        | none => rw [hp] at h; exact absurd h (by simp)
        | some r => rw [hp] at h; simp only [Except.ok.injEq] at h; rw [h]

/-- C9: for a file_hash shorter than two characters the subdirectory
component `hash[:2]` equals the whole hash (the slice is total: no
exception), and the lookup proceeds normally — on a non-raising
filesystem and a valid category, any failure is the ordinary 404, never a
crash turned into a 500. -/
theorem get_local_image_short_hash (file_hash : String)
    (h : file_hash.length < 2) :
    py_slice2 file_hash = file_hash ∧
    ∀ (f : String → Bool) (base image_type : String),
      image_type = "covers" ∨ image_type = "avatars" →
      ∀ e, get_local_image (pureFS f) base image_type file_hash = Except.error e →
        e = ⟨404, "图片不存在: " ++ file_hash⟩ := by
  constructor
  · obtain ⟨l⟩ := file_hash
    simp only [py_slice2]
    exact congrArg String.mk (List.take_of_length_le (Nat.le_of_lt h))
  · intro f base image_type hv e he
    rw [get_local_image_valid _ _ _ _ hv, tryBody_pure] at he
    cases hdir : f (img_dir_of base image_type file_hash) with
    | false =>
      rw [if_neg (by simp [hdir])] at he
      simp only [Except.error.injEq] at he
      exact he.symm
    | true =>
      rw [if_pos hdir] at he
      cases hfind : (image_exts.find? fun ext =>
          f (probe_path (img_dir_of base image_type file_hash) file_hash ext)) with
      | some ext => rw [hfind] at he; exact absurd he (by simp)
      | none =>
        rw [hfind] at he
        simp only [Except.error.injEq] at he
        exact he.symm

/-- C9 witness: the length-1 hash "a" keeps its whole value as
subdirectory, and a lookup for it on an empty filesystem ends in the
ordinary 404. -/
theorem get_local_image_short_hash_witness :
    py_slice2 "a" = "a" ∧
    (⟨404, "图片不存在: a"⟩ : HTTPException) = ⟨404, "图片不存在: " ++ "a"⟩ :=
  ⟨(get_local_image_short_hash "a" (by decide)).1,
   (get_local_image_short_hash "a" (by decide)).2 (fun _ => false) "output/images"
     "covers" (Or.inl rfl) ⟨404, "图片不存在: a"⟩ (by rfl)⟩

/-- C2: for a valid category, when the two-level directory exists the
handler returns the file of the first extension in the fixed order .jpg,
.jpeg, .png, .webp, .gif whose probe path exists (`List.find?` over that
order), and 404 when none does — so with several extensions present the
earliest in the list wins. -/
theorem get_local_image_first_match (f : String → Bool)
    (base image_type file_hash : String)
    (hv : image_type = "covers" ∨ image_type = "avatars")
    (hdir : f (img_dir_of base image_type file_hash) = true) :
    get_local_image (pureFS f) base image_type file_hash =
      match (image_exts.find? fun ext =>
          f (probe_path (img_dir_of base image_type file_hash) file_hash ext)) with
      | some ext =>
          Except.ok ⟨probe_path (img_dir_of base image_type file_hash) file_hash ext,
            media_type_of ext⟩
      | none => Except.error ⟨404, "图片不存在: " ++ file_hash⟩ := by
  rw [get_local_image_valid _ _ _ _ hv, tryBody_pure, if_pos hdir]
  cases hfind : (image_exts.find? fun ext =>
      f (probe_path (img_dir_of base image_type file_hash) file_hash ext)) with
  | some ext => rfl
  | none => rfl

/-- C2 witness: hash "abc" under covers with .jpg and .jpeg absent but
.png, .webp and .gif all present — the handler serves the .png file, the
earliest present extension in the fixed order. -/
theorem get_local_image_first_match_witness :
    get_local_image (pureFS fun p =>
        decide (p ≠ "output/images/covers/ab/abc.jpg" ∧
          p ≠ "output/images/covers/ab/abc.jpeg"))
      "output/images" "covers" "abc" =
      Except.ok ⟨"output/images/covers/ab/abc.png", "image/png"⟩ := by
  rw [get_local_image_first_match _ _ _ _ (Or.inl rfl) (by decide)]
  decide

/-- C4: for a valid category, (1) on a non-raising filesystem the handler
fails with a 404 exactly when the two-level directory is absent or no
probe path of the extension list exists; (2) any non-HTTPException
exception inside the lookup becomes the 500 error; (3) the handler never
succeeds silently — a success is exactly a success of the lookup body. -/
theorem get_local_image_not_found_iff (base image_type file_hash : String)
    (hv : image_type = "covers" ∨ image_type = "avatars") :
    (∀ f : String → Bool,
      ((∃ d, get_local_image (pureFS f) base image_type file_hash =
          Except.error ⟨404, d⟩) ↔
        (f (img_dir_of base image_type file_hash) = false ∨
         ∀ ext ∈ image_exts,
           f (probe_path (img_dir_of base image_type file_hash) file_hash ext) =
             false))) ∧
    (∀ fs msg, tryBody fs base image_type file_hash =
        Except.error (PyError.other msg) →
      get_local_image fs base image_type file_hash =
        Except.error ⟨500, "获取图片失败: " ++ msg⟩) ∧
    (∀ fs resp, get_local_image fs base image_type file_hash = Except.ok resp →
      tryBody fs base image_type file_hash = Except.ok resp) := by
  refine ⟨?_, ?_, ?_⟩
  · intro f
    rw [get_local_image_valid _ _ _ _ hv, tryBody_pure]
    cases hdir : f (img_dir_of base image_type file_hash) with
    | false =>
      rw [if_neg (by simp [hdir])]
      exact ⟨fun _ => Or.inl rfl, fun _ => ⟨"图片不存在: " ++ file_hash, rfl⟩⟩
    | true =>
      rw [if_pos rfl]
      cases hfind : (image_exts.find? fun ext =>
          f (probe_path (img_dir_of base image_type file_hash) file_hash ext)) with
      | none =>
        constructor
        · intro _
          refine Or.inr fun ext hmem => ?_
          have := List.find?_eq_none.mp hfind ext hmem
          exact Bool.eq_false_iff.mpr this
        · intro _
          exact ⟨"图片不存在: " ++ file_hash, rfl⟩
      | some ext =>
        constructor
        · rintro ⟨d, hd⟩
          exact absurd hd (by simp)
        · rintro (hfalse | hall)
          · exact absurd hfalse (by decide)
          · have hmem := List.mem_of_find?_eq_some hfind
            have hsat := List.find?_some hfind
            rw [hall ext hmem] at hsat
            exact absurd hsat (by simp)
  · intro fs msg hb
    rw [get_local_image_valid _ _ _ _ hv, hb]
  · intro fs resp hok
    rw [get_local_image_valid _ _ _ _ hv] at hok
    cases htb : tryBody fs base image_type file_hash with
    | ok r => rw [htb] at hok; simp only [Except.ok.injEq] at hok; rw [hok]
    | error pe =>
      cases pe with
      | http c d => rw [htb] at hok; exact absurd hok (by simp)
      | other m => rw [htb] at hok; exact absurd hok (by simp)

/-- C4 witness: a filesystem probe that raises ("boom") yields the 500
error response. -/
theorem get_local_image_not_found_iff_witness :
    get_local_image (fun _ => Except.error "boom") "output/images" "covers" "abc" =
      Except.error ⟨500, "获取图片失败: " ++ "boom"⟩ :=
  (get_local_image_not_found_iff "output/images" "covers" "abc" (Or.inl rfl)).2.1
    (fun _ => Except.error "boom") "boom" rfl

/-- The content-type rule as the spec words it: .jpg and .jpeg map to
image/jpeg, every other extension to image/ followed by the extension
without its dot. -/
def spec_content_type (ext : String) : String :=
  if ext = ".jpg" ∨ ext = ".jpeg" then "image/jpeg"
  else "image/" ++ String.drop ext 1

/-- The media type the code computes agrees with the spec's rule on every
extension of the probe list. -/
theorem media_type_of_eq_spec :
    ∀ ext ∈ image_exts, media_type_of ext = spec_content_type ext := by
  decide

/-- C5: every successful response serves one of the probed extensions at
its probe path, with content type given by the spec's rule — image/jpeg
for .jpg and .jpeg, image/<ext-without-dot> for the others. -/
theorem get_local_image_media_type (fs : String → Except String Bool)
    (base image_type file_hash : String) (resp : FileResponse)
    (h : get_local_image fs base image_type file_hash = Except.ok resp) :
    ∃ ext ∈ image_exts,
      resp.path = probe_path (img_dir_of base image_type file_hash) file_hash ext ∧
      resp.media_type = spec_content_type ext := by
  by_cases hv : image_type = "covers" ∨ image_type = "avatars"
  · rw [get_local_image_valid _ _ _ _ hv] at h
    cases htb : tryBody fs base image_type file_hash with
    | ok r =>
      rw [htb] at h
      simp only [Except.ok.injEq] at h
      obtain ⟨ext, hmem, hr⟩ := probeExts_ok_some fs _ file_hash image_exts r (tryBody_ok fs _ _ _ r htb)
      refine ⟨ext, hmem, ?_, ?_⟩
      · rw [← h, hr]
      · rw [← h, hr, ← media_type_of_eq_spec ext hmem]
    | error pe =>
      cases pe with
      | http c d => rw [htb] at h; exact absurd h (by simp)
      | other m => rw [htb] at h; exact absurd h (by simp)
  · rw [get_local_image, if_neg hv] at h
    exact absurd h (by simp)

/-- C5 witness: on a filesystem where every path exists, the lookup for
hash "abc" under covers serves the .jpg file with content type
image/jpeg, matching the spec rule. -/
theorem get_local_image_media_type_witness :
    ∃ ext ∈ image_exts,
      (FileResponse.mk "output/images/covers/ab/abc.jpg" "image/jpeg").path =
        probe_path (img_dir_of "output/images" "covers" "abc") "abc" ext ∧
      (FileResponse.mk "output/images/covers/ab/abc.jpg" "image/jpeg").media_type =
        spec_content_type ext :=
  get_local_image_media_type (pureFS fun _ => true) "output/images" "covers" "abc"
    ⟨"output/images/covers/ab/abc.jpg", "image/jpeg"⟩ (by rfl)

/-- The two-level layout rule HashStore documents, following the spec's
words: `<images base>/<type>/<hash[0:2]>/<hash>.<ext>` (the extension
carries its dot). -/
def hashStoreLayoutPath (base category hash ext : String) : String :=
  base ++ "/" ++ category ++ "/" ++ py_slice2 hash ++ "/" ++ hash ++ ext

/-- C1: for a valid category, every path the handler probes is exactly the
two-level layout `<base>/<category>/<hash[0:2]>/<hash>.<ext>`, and the
handler's outcome depends on the filesystem only at the probed directory
and those layout paths — the read path stays consistent with HashStore's
layout rule. -/
theorem get_local_image_layout_consistent (base image_type file_hash : String)
    (hv : image_type = "covers" ∨ image_type = "avatars") :
    image_exts.map (probe_path (img_dir_of base image_type file_hash) file_hash) =
      image_exts.map (hashStoreLayoutPath base image_type file_hash) ∧
    ∀ fs fs' : String → Except String Bool,
      fs (img_dir_of base image_type file_hash) =
        fs' (img_dir_of base image_type file_hash) →
      (∀ ext ∈ image_exts,
        fs (probe_path (img_dir_of base image_type file_hash) file_hash ext) =
        fs' (probe_path (img_dir_of base image_type file_hash) file_hash ext)) →
      get_local_image fs base image_type file_hash =
        get_local_image fs' base image_type file_hash := by
  constructor
  · have hpt : ∀ ext, probe_path (img_dir_of base image_type file_hash) file_hash ext =
        hashStoreLayoutPath base image_type file_hash ext := by
      intro ext
      simp [probe_path, img_dir_of, os_join, hashStoreLayoutPath, String.append_assoc]
    simp [image_exts, hpt]
  · intro fs fs' hdir hp
    rw [get_local_image_valid _ _ _ _ hv, get_local_image_valid _ _ _ _ hv,
      tryBody_agree fs fs' base image_type file_hash hdir hp]

/-- C1 witness: for hash "abc" under covers the five probe paths equal the
layout paths, and two filesystems agreeing on the probed locations give
the same response. -/
theorem get_local_image_layout_consistent_witness :
    image_exts.map (probe_path (img_dir_of "output/images" "covers" "abc") "abc") =
      image_exts.map (hashStoreLayoutPath "output/images" "covers" "abc") ∧
    get_local_image (pureFS fun _ => false) "output/images" "covers" "abc" =
      get_local_image (pureFS fun p => false && (p.length == 0))
        "output/images" "covers" "abc" :=
  ⟨(get_local_image_layout_consistent "output/images" "covers" "abc" (Or.inl rfl)).1,
   (get_local_image_layout_consistent "output/images" "covers" "abc" (Or.inl rfl)).2
     _ _ rfl (fun _ _ => rfl)⟩
